import Mathlib

/-!
Verification of the natural-language specification of
`usb-flash-monitor.py` (meta-raspberrypi-custom) against a shallow
embedding of its code.  Filesystem, subprocess and cryptographic
primitives are modelled as explicit environment fields; the Python
functions are translated into total Lean functions over that
environment.  Byte strings are modelled as `String` (ASCII model) and
bytes as `Nat`.
-/

/-- ASCII model of Python whitespace (the characters `str.split` and
`str.strip` treat as separators). -/
def isPySpace (c : Char) : Bool :=
  c = ' ' || c = '\t' || c = '\n' || c = '\r' || c = '\x0b' || c = '\x0c'

/-- Lookup table for ASCII upper-casing, modelling Python `str.upper`
on the ASCII range (the only range the program's serials use). -/
def upTable : List (Char × Char) :=
  [('a', 'A'), ('b', 'B'), ('c', 'C'), ('d', 'D'), ('e', 'E'), ('f', 'F'),
   ('g', 'G'), ('h', 'H'), ('i', 'I'), ('j', 'J'), ('k', 'K'), ('l', 'L'),
   ('m', 'M'), ('n', 'N'), ('o', 'O'), ('p', 'P'), ('q', 'Q'), ('r', 'R'),
   ('s', 'S'), ('t', 'T'), ('u', 'U'), ('v', 'V'), ('w', 'W'), ('x', 'X'),
   ('y', 'Y'), ('z', 'Z')]

/-- ASCII model of Python `str.upper`, character-wise. -/
def pyToUpper (c : Char) : Char :=
  match upTable.find? (fun x => x.1 = c) with
  | some x => x.2
  | none => c

/-- Does the first list lead (start) the second one?  Used to model
Python `str.startswith`. -/
def leadsWith : List Char → List Char → Bool
  | [], _ => true
  | _ :: _, [] => false
  | p :: ps, s :: ss => p = s && leadsWith ps ss

/-- Model of Python `s.startswith(pre)`. -/
def pyStartsWith (s pre : String) : Bool :=
  leadsWith pre.data s.data

/-- Does `pat` occur as a contiguous subsequence? Models Python `in`
on strings. -/
def containsSeq (pat : List Char) : List Char → Bool
  | [] => leadsWith pat []
  | c :: rest => leadsWith pat (c :: rest) || containsSeq pat rest

/-- Model of Python `pat in hay` for strings. -/
def containsSubstr (hay pat : String) : Bool :=
  containsSeq pat.data hay.data

/-- Split a character list on a separator character, keeping empty
pieces (model of Python `str.split(sep)`). -/
def splitOnCharGo (sep : Char) : List Char → List Char → List (List Char)
  | [], acc => [acc.reverse]
  | c :: rest, acc =>
    if c = sep then acc.reverse :: splitOnCharGo sep rest []
    else splitOnCharGo sep rest (c :: acc)

/-- Split on a separator character (model of Python `str.split(sep)`). -/
def splitOnCharL (sep : Char) (l : List Char) : List (List Char) :=
  splitOnCharGo sep l []

/-- Model of Python argument-less `str.split`: split into maximal runs
of non-whitespace characters, dropping empties. -/
def pySplitGo : List Char → List Char → List (List Char)
  | [], acc => if acc = [] then [] else [acc.reverse]
  | c :: rest, acc =>
    if isPySpace c then
      if acc = [] then pySplitGo rest []
      else acc.reverse :: pySplitGo rest []
    else pySplitGo rest (c :: acc)

/-- Concatenation of a list of lists (model of `''.join`). -/
def charJoin {α : Type} : List (List α) → List α
  | [] => []
  | l :: ls => l ++ charJoin ls

/-- Model of Python `str.strip()` at the character-list level. -/
def pyStripL (l : List Char) : List Char :=
  ((l.dropWhile isPySpace).reverse.dropWhile isPySpace).reverse

/-- Model of Python `str.strip()`. -/
def pyStrip (s : String) : String :=
  String.mk (pyStripL s.data)

/-- Model of Python `s.rstrip('0123456789')`. -/
def rstripDigits (s : String) : String :=
  String.mk ((s.data.reverse.dropWhile (fun c => c.isDigit)).reverse)

/-- The character-list after the first occurrence of `sep` (model of
`line.split(sep, 1)[1]` when `sep` occurs). -/
def afterChar (sep : Char) : List Char → List Char
  | [] => []
  | c :: rest => if c = sep then rest else afterChar sep rest

/-- UTF-8 encoding of a single character, as byte values. -/
def utf8EncodeChar (c : Char) : List Nat :=
  let n := c.toNat
  if n < 0x80 then [n]
  else if n < 0x800 then
    [0xC0 ||| (n >>> 6), 0x80 ||| (n &&& 0x3F)]
  else if n < 0x10000 then
    [0xE0 ||| (n >>> 12), 0x80 ||| ((n >>> 6) &&& 0x3F), 0x80 ||| (n &&& 0x3F)]
  else
    [0xF0 ||| (n >>> 18), 0x80 ||| ((n >>> 12) &&& 0x3F),
     0x80 ||| ((n >>> 6) &&& 0x3F), 0x80 ||| (n &&& 0x3F)]

/-- UTF-8 encoding of a string (model of `str.encode` with encoding
`utf-8`). -/
def utf8Encode (s : String) : List Nat :=
  charJoin (s.data.map utf8EncodeChar)

/-- Hash algorithms appearing in the program (only SHA-256). -/
inductive HashAlg where
  | sha256
deriving DecidableEq

/-- PSS salt-length choices appearing in the program. -/
inductive PSSSaltLen where
  | maxLength
  | length (n : Nat)
deriving DecidableEq

/-- The PSS padding descriptor passed to the verification primitive. -/
structure PSSPadding where
  mgf1Hash : HashAlg
  salt_length : PSSSaltLen
deriving DecidableEq

/-- Outcome of the low-level `public_key.verify` call: success, an
`InvalidSignature` exception, or any other exception (malformed
signature, wrong key type, ...). -/
inductive VerifyOutcome where
  | ok
  | invalidSignature
  | otherError
deriving DecidableEq

/-- The environment: filesystem, subprocess and crypto primitives the
script consumes.  `none` results model a raised exception (or a
`subprocess` timeout) at that call site; public keys are opaque handles
(`Nat`). -/
structure Env where
  usb_port : String
  listdir : String → Option (List String)
  fileExists : String → Bool
  readFile : String → Option String
  realpath : String → Option String
  udevadm : String → Option (Int × String)
  parseKey : String → Option Nat
  sha256 : List Nat → List Nat
  pssVerify : Nat → String → List Nat → PSSPadding → HashAlg → VerifyOutcome
  mkdtempR : Option String
  mountR : String → Option Int
  umountR : String → Option Int
  rmdirOk : String → Bool
  umount2R : String → Option Int
  rmdir2Ok : String → Bool

/-- The embedded placeholder public key (`PUBLIC_KEY_PEM`). -/
def PUBLIC_KEY_PEM : String :=
  "-----BEGIN PUBLIC KEY-----\nREPLACE_THIS_WITH_YOUR_PUBLIC_KEY_CONTENT\n-----END PUBLIC KEY-----"

/-- Embedding of `block_dev_is_removable`: read
`/sys/block/NAME/removable` and compare the stripped content with
`"1"`; any read error yields `false`. -/
def block_dev_is_removable (env : Env) (block_name : String) : Bool :=
  match env.readFile ("/sys/block/" ++ block_name ++ "/removable") with
  | none => false
  | some content => pyStrip content = "1"

/-- Shape test on a path segment from `block_dev_usb_port`:
`"-" in port and port[0].isdigit()`. -/
def portShape (port : String) : Bool :=
  port.data.contains '-' &&
    (match port.data with
     | [] => false
     | c :: _ => c.isDigit)

/-- The scanning loop of `block_dev_usb_port` over the path segments:
for each segment starting with `"usb"` that has a successor, return the
successor if it has the port shape, otherwise keep scanning. -/
def usb_port_scan : List String → Option String
  | p :: next :: rest =>
    if pyStartsWith p "usb" && portShape next then some next
    else usb_port_scan (next :: rest)
  | _ => none

/-- Path segments of a resolved device-tree path (split on `os.sep`). -/
def pathParts (t : String) : List String :=
  (splitOnCharL '/' t.data).map (fun l => String.mk l)

/-- Embedding of `block_dev_usb_port`: resolve
`/sys/block/NAME/device` and scan the target path's segments; `none`
when the link cannot be resolved or no segment qualifies. -/
def block_dev_usb_port (env : Env) (block_name : String) : Option String :=
  match env.realpath ("/sys/block/" ++ block_name ++ "/device") with
  | none => none
  | some target => usb_port_scan (pathParts target)

/-- Embedding of `port_matches`.  The `device_port` argument models the
Python value that may be `None`; an empty string is falsy in Python and
is likewise rejected up front. -/
def port_matches (device_port : Option String) (usb_port : String) : Bool :=
  match device_port with
  | none => false
  | some p =>
    if p = "" then false
    else if p = usb_port then true
    else if pyStartsWith p (usb_port ++ ".") || pyStartsWith p (usb_port ++ ":") then true
    else false

/-- The partition loop of `get_device_name`: first listed entry that
starts with the device name and differs from it. -/
def strict_ext_scan (name : String) : List String → Option String
  | [] => none
  | p :: rest =>
    if pyStartsWith p name && !(p == name) then some p
    else strict_ext_scan name rest

/-- The partition-preference step of `get_device_name`: list
`/sys/block/NAME`; return the first strict extension of `NAME` if any,
the base name on no match or listing error. -/
def device_identity (env : Env) (name : String) : String :=
  match env.listdir ("/sys/block/" ++ name) with
  | none => name
  | some parts =>
    match strict_ext_scan name parts with
    | some p => p
    | none => name

/-- The enumeration loop of `get_device_name` over `/sys/block`
entries. -/
def find_candidate (env : Env) : List String → Option String
  | [] => none
  | n :: rest =>
    if pyStartsWith n "sd" && block_dev_is_removable env n &&
        port_matches (block_dev_usb_port env n) env.usb_port
    then some (device_identity env n)
    else find_candidate env rest

/-- Embedding of `get_device_name`. -/
def get_device_name (env : Env) : Option String :=
  match env.listdir "/sys/block" with
  | none => none
  | some names => find_candidate env names

/-- Embedding of `clean_serial`: strip, remove internal whitespace via
split/join, uppercase. -/
def clean_serial (s : String) : String :=
  if s = "" then ""
  else String.mk ((charJoin (pySplitGo (pyStripL s.data) [])).map pyToUpper)

/-- The `ID_SERIAL_SHORT=` line scan of `get_usb_serial_linux` over
udevadm output lines. -/
def findSerialLine : List String → Option String
  | [] => none
  | line :: rest =>
    if pyStartsWith line "ID_SERIAL_SHORT=" then
      let serial := pyStrip (String.mk (afterChar '=' line.data))
      if serial ≠ "" then some (clean_serial serial) else findSerialLine rest
    else findSerialLine rest

/-- The udevadm fallback of `get_usb_serial_linux`: query the property
database (bounded timeout, failure ⇒ `none`), scan stdout lines when
the process exits 0. -/
def udevFallback (env : Env) (base_device : String) : Option String :=
  match env.udevadm base_device with
  | none => none
  | some (rc, out) =>
    if rc = 0 then
      findSerialLine ((splitOnCharL '\n' out.data).map (fun l => String.mk l))
    else none

/-- Embedding of `get_usb_serial_linux`: strip trailing digits, try the
sysfs serial attribute, fall back to udevadm. -/
def get_usb_serial_linux (env : Env) (device_name : String) : Option String :=
  let base_device := rstripDigits device_name
  let serial_path := "/sys/block/" ++ base_device ++ "/device/serial"
  if env.fileExists serial_path then
    match env.readFile serial_path with
    | none => none
    | some content =>
      let serial := pyStrip content
      if serial ≠ "" then some (clean_serial serial)
      else udevFallback env base_device
  else udevFallback env base_device

/-- Embedding of `load_public_key`: use the given PEM data or the
embedded default; when it contains the `REPLACE_THIS` placeholder, fall
back to `/etc/usb-validator/public_key.pem`; parse failures yield
`none`. -/
def load_public_key (env : Env) (pem_arg : Option String) : Option Nat :=
  let pem_data := pem_arg.getD PUBLIC_KEY_PEM
  if containsSubstr pem_data "REPLACE_THIS" then
    if env.fileExists "/etc/usb-validator/public_key.pem" then
      match env.readFile "/etc/usb-validator/public_key.pem" with
      | none => none
      | some d => env.parseKey d
    else none
  else env.parseKey pem_data

/-- Embedding of `verify_signature`: SHA-256 over the UTF-8 bytes of
`serial ++ salt_string`, then PSS verification (MGF1 SHA-256, maximum
salt length); both exception branches collapse to `false`. -/
def verify_signature (env : Env) (serial signature : String)
    (public_key : Nat) (salt_string : String := "manufacture") : Bool :=
  let data_to_hash := serial ++ salt_string
  let hashed_data := env.sha256 (utf8Encode data_to_hash)
  match env.pssVerify public_key signature hashed_data
      { mgf1Hash := HashAlg.sha256, salt_length := PSSSaltLen.maxLength }
      HashAlg.sha256 with
  | VerifyOutcome.ok => true
  | VerifyOutcome.invalidSignature => false
  | VerifyOutcome.otherError => false

/-- Embedding of `validate_mounted_usb`: key, signature file, serial,
then verification; every failure yields `false`. -/
def validate_mounted_usb (env : Env) (mount_point device_name : String) : Bool :=
  match load_public_key env none with
  | none => false
  | some pk =>
    let sig_file := mount_point ++ "/device.sig"
    if env.fileExists sig_file then
      match env.readFile sig_file with
      | none => false
      | some signature =>
        match get_usb_serial_linux env device_name with
        | none => false
        | some serial =>
          if serial = "" then false
          else verify_signature env serial signature pk
    else false

/-- Resource state after a `mount_and_validate` call: does the
temporary mount-point directory still exist, is the device still
mounted there, and was `validate_mounted_usb` invoked. -/
structure MState where
  dirExists : Bool
  mounted : Bool
  validateCalled : Bool
deriving DecidableEq

/-- The `except Exception` handler of `mount_and_validate`: when a
mount point exists, attempt umount (a raise skips the rmdir) and rmdir;
always return `"3"`. -/
def cleanup_on_error (env : Env) (mp : String) (st : MState) : String × MState :=
  if mp = "" then ("3", st)
  else
    match env.umount2R mp with
    | none => ("3", st)
    | some urc2 =>
      let st1 : MState :=
        { st with mounted := if urc2 = 0 then false else st.mounted }
      if env.rmdir2Ok mp then ("3", { st1 with dirExists := false })
      else ("3", st1)

/-- Embedding of `mount_and_validate`, returning the printed result
string together with the final resource state.  A `none` from a
subprocess field models a raised timeout; a non-zero mount exit returns
`"3"` directly (no cleanup code runs on that path in the source). -/
def mount_and_validate (env : Env) (device_name : String) : String × MState :=
  match env.mkdtempR with
  | none => ("3", ⟨false, false, false⟩)
  | some mp =>
    match env.mountR ("/dev/" ++ device_name) with
    | none => cleanup_on_error env mp ⟨true, false, false⟩
    | some rc =>
      if rc ≠ 0 then ("3", ⟨true, false, false⟩)
      else
        let is_valid := validate_mounted_usb env mp device_name
        match env.umountR mp with
        | none => cleanup_on_error env mp ⟨true, true, true⟩
        | some urc =>
          let st1 : MState := ⟨!(env.rmdirOk mp), urc ≠ 0, true⟩
          ((if is_valid then "1" else "3"), st1)

/-- State of the `main` loop across ticks. -/
structure LoopState where
  last_detected : Bool
  validation_result : Option String
deriving DecidableEq

/-- Per-tick environment: either the tick body runs with the given
environment, or an abrupt exception reaches the loop's handler. -/
inductive TickEnv where
  | ok (env : Env)
  | exn

/-- What Python `print` emits for an `Optional[str]` value. -/
def pyPrintOpt : Option String → String
  | some r => r
  | none => "None"

/-- One iteration of the `while True` body of `main`: returns the
printed line, the device validated this tick (if any), and the next
state. -/
def tick : TickEnv → LoopState → String × Option String × LoopState
  | TickEnv.exn, _ => ("0", none, ⟨false, none⟩)
  | TickEnv.ok env, s =>
    match get_device_name env with
    | some dn =>
      if s.last_detected then
        (pyPrintOpt s.validation_result, none, ⟨true, s.validation_result⟩)
      else
        let r := (mount_and_validate env dn).1
        (r, some dn, ⟨true, some r⟩)
    | none => ("0", none, ⟨false, none⟩)

/-- Iterate `tick` over a list of per-tick environments: the printed
lines, the per-tick validation invocations, and the final state. -/
def runTicks : List TickEnv → LoopState → List String × List (Option String) × LoopState
  | [], s => ([], [], s)
  | e :: es, s =>
    let r := tick e s
    let rest := runTicks es r.2.2
    (r.1 :: rest.1, r.2.1 :: rest.2.1, rest.2.2)

/-- Modelled from the spec's words for claim C8 (not from the code):
the segment immediately following the FIRST path segment that begins
with "usb", provided that next segment has the port shape; `none`
otherwise. -/
def usb_port_spec_first : List String → Option String
  | p :: next :: rest =>
    if pyStartsWith p "usb" then (if portShape next then some next else none)
    else usb_port_spec_first (next :: rest)
  | _ => none

/-- The three literals the loop is supposed to print. -/
def goodLine (l : String) : Prop := l = "0" ∨ l = "1" ∨ l = "3"

/-- Invariant of the loop state: while a device is recorded as
present, a concrete validation result is cached. -/
def loopInv (s : LoopState) : Prop :=
  s.last_detected = true →
    s.validation_result = some "1" ∨ s.validation_result = some "3"

/-- An environment where every external primitive fails or is absent
(no devices, no files, no keys); subprocess calls succeed trivially. -/
def nullEnv : Env where
  usb_port := "2-1"
  listdir := fun _ => none
  fileExists := fun _ => false
  readFile := fun _ => none
  realpath := fun _ => none
  udevadm := fun _ => none
  parseKey := fun _ => none
  sha256 := fun _ => []
  pssVerify := fun _ _ _ _ _ => VerifyOutcome.otherError
  mkdtempR := some "/tmp/usb_validate_a"
  mountR := fun _ => some 0
  umountR := fun _ => some 0
  rmdirOk := fun _ => true
  umount2R := fun _ => some 0
  rmdir2Ok := fun _ => true

/-- An environment exposing one removable disk `sda` on port `2-1`
with two partitions `sda1`, `sda2`. -/
def devEnv : Env :=
  { nullEnv with
    listdir := fun p =>
      if p = "/sys/block" then some ["sda"]
      else if p = "/sys/block/sda" then some ["power", "sda1", "sda2"]
      else none
    readFile := fun p =>
      if p = "/sys/block/sda/removable" then some "1\n" else none
    realpath := fun p =>
      if p = "/sys/block/sda/device" then
        some "/sys/devices/platform/soc/usb2/2-1/2-1:1.0/host0/target0:0:0/0:0:0:0"
      else none }

/-- An environment whose mount command exits with status 32. -/
def c1env : Env := { nullEnv with mountR := fun _ => some 32 }

/-- An environment whose mount command times out (raises). -/
def c5aenv : Env := { nullEnv with mountR := fun _ => none }

/-- An environment whose mount command exits with status 32 (separate
copy for claim C5's witness). -/
def c5benv : Env := { nullEnv with mountR := fun _ => some 32 }

/-- An environment whose device `sda` has exactly one sub-entry that
is a strict extension of its name. -/
def c7envOne : Env :=
  { nullEnv with
    listdir := fun p =>
      if p = "/sys/block" then some ["sda"]
      else if p = "/sys/block/sda" then some ["power", "sda1"]
      else none }

/-- An environment whose resolved device path has a first
"usb"-prefixed segment that is not followed by a port-shaped
segment. -/
def c8env : Env :=
  { nullEnv with realpath := fun p =>
      if p = "/sys/block/sdx/device" then some "/sys/usbA/zz/usb2/2-1" else none }

theorem charJoin_pySplitGo (l : List Char) : ∀ acc : List Char,
    charJoin (pySplitGo l acc) =
      acc.reverse ++ l.filter (fun c => !isPySpace c) := by
  induction l with
  | nil =>
    intro acc
    by_cases h : acc = ([] : List Char) <;> simp [pySplitGo, charJoin, h]
  | cons c rest ih =>
    intro acc
    by_cases hc : isPySpace c = true
    · by_cases h : acc = ([] : List Char) <;>
        simp [pySplitGo, hc, h, charJoin, ih, List.filter_cons]
    · simp [pySplitGo, hc, ih, charJoin, List.filter_cons]

theorem filter_dropWhile_pySpace (l : List Char) :
    (l.dropWhile isPySpace).filter (fun c => !isPySpace c) =
      l.filter (fun c => !isPySpace c) := by
  induction l with
  | nil => rfl
  | cons c rest ih =>
    by_cases hc : isPySpace c = true <;>
      simp [List.dropWhile_cons, hc, List.filter_cons, ih]

theorem filter_pyStripL (l : List Char) :
    (pyStripL l).filter (fun c => !isPySpace c) =
      l.filter (fun c => !isPySpace c) := by
  unfold pyStripL
  rw [List.filter_reverse, filter_dropWhile_pySpace, List.filter_reverse,
    List.reverse_reverse, filter_dropWhile_pySpace]

theorem pyToUpper_fixed (c : Char) :
    pyToUpper (pyToUpper c) = pyToUpper c := by
  unfold pyToUpper
  cases h : upTable.find? (fun x => x.1 = c) with
  | none => simp [h]
  | some x =>
    have hx : x ∈ upTable := List.mem_of_find?_eq_some h
    have hnone : ∀ p ∈ upTable, upTable.find? (fun y => y.1 = p.2) = none := by decide
    simp [hnone x hx]

theorem isPySpace_pyToUpper (c : Char) :
    isPySpace (pyToUpper c) = isPySpace c := by
  unfold pyToUpper
  cases h : upTable.find? (fun x => x.1 = c) with
  | none => rfl
  | some x =>
    have hx : x ∈ upTable := List.mem_of_find?_eq_some h
    have hc : x.1 = c := by
      have := List.find?_some h
      simpa using this
    have hns : ∀ p ∈ upTable, isPySpace p.1 = false ∧ isPySpace p.2 = false := by decide
    rw [(hns x hx).2, ← hc, (hns x hx).1]

theorem filter_map_pyToUpper (l : List Char) :
    (l.map pyToUpper).filter (fun c => !isPySpace c) =
      (l.filter (fun c => !isPySpace c)).map pyToUpper := by
  induction l with
  | nil => rfl
  | cons c rest ih =>
    by_cases hc : isPySpace c = true <;>
      simp [List.filter_cons, isPySpace_pyToUpper, hc, ih]

theorem map_pyToUpper_fixed (l : List Char) :
    (l.map pyToUpper).map pyToUpper = l.map pyToUpper := by
  rw [List.map_map]
  apply List.map_congr_left
  intro a _
  simp [Function.comp, pyToUpper_fixed]

theorem filter_self_pySpace (l : List Char) :
    (l.filter (fun c => !isPySpace c)).filter (fun c => !isPySpace c) =
      l.filter (fun c => !isPySpace c) := by
  induction l with
  | nil => rfl
  | cons c rest ih =>
    by_cases hc : isPySpace c = true <;> simp [List.filter_cons, hc, ih]

theorem clean_serial_eq (s : String) :
    clean_serial s =
      String.mk ((s.data.filter (fun c => !isPySpace c)).map pyToUpper) := by
  by_cases h : s = ""
  · subst h; rfl
  · simp only [clean_serial, h, if_neg, ite_false]
    rw [charJoin_pySplitGo, List.reverse_nil, List.nil_append, filter_pyStripL]

theorem clean_serial_fixed (s : String) :
    clean_serial (clean_serial s) = clean_serial s := by
  rw [clean_serial_eq s, clean_serial_eq]
  apply congrArg String.mk
  rw [show (String.mk ((s.data.filter (fun c => !isPySpace c)).map pyToUpper)).data
        = (s.data.filter (fun c => !isPySpace c)).map pyToUpper from rfl]
  rw [filter_map_pyToUpper, filter_self_pySpace, map_pyToUpper_fixed]

/-- Claim C9: serial canonicalization is idempotent; its output is the
input with all (leading, trailing and internal) whitespace removed and
the remaining characters upper-cased; `clean_serial " ab c " = "ABC"`
and `clean_serial "" = ""`. -/
theorem claim_C9_canon :
    (∀ s : String, clean_serial (clean_serial s) = clean_serial s)
    ∧ (∀ s : String,
        clean_serial s =
          String.mk ((s.data.filter (fun c => !isPySpace c)).map pyToUpper))
    ∧ clean_serial " ab c " = "ABC"
    ∧ clean_serial "" = "" :=
  ⟨clean_serial_fixed, clean_serial_eq, by decide, rfl⟩

/-- Claim C3 counterexample: at candidate `""` and target `""` the
code returns `false` although the claimed characterization (candidate
equals target) demands `true`. -/
theorem claim_C3_portmatch_cx :
    ¬(port_matches (some "") "" = true ↔
        (("" : String) = "" ∨ pyStartsWith "" ("" ++ ".") = true ∨
          pyStartsWith "" ("" ++ ":") = true)) := by
  decide

/-- Claim C3 (amended): `port_matches (some c) t` is true iff `c` is
nonempty and (`c = t`, or `c` starts with `t ++ "."`, or `c` starts
with `t ++ ":"`); an absent candidate is rejected; the spec's four
examples hold. -/
theorem claim_C3_portmatch :
    (∀ c t : String,
      port_matches (some c) t = true ↔
        (c ≠ "" ∧ (c = t ∨ pyStartsWith c (t ++ ".") = true ∨
          pyStartsWith c (t ++ ":") = true)))
    ∧ (∀ t : String, port_matches none t = false)
    ∧ port_matches (some "2-1") "2-1" = true
    ∧ port_matches (some "2-1.3") "2-1" = true
    ∧ port_matches (some "2-10") "2-1" = false := by
  refine ⟨?_, fun t => rfl, by decide, by decide, by decide⟩
  intro c t
  unfold port_matches
  by_cases hc : c = ""
  · simp [hc]
  · by_cases he : c = t
    · simp [hc, he]
    · by_cases h1 : pyStartsWith c (t ++ ".") = true
      · simp [hc, he, h1]
      · by_cases h2 : pyStartsWith c (t ++ ":") = true <;>
          simp [hc, he, h1, h2]

theorem usb_port_scan_eq_find : ∀ l : List String,
    usb_port_scan l =
      (List.find? (fun ab => pyStartsWith ab.1 "usb" && portShape ab.2)
        (l.zip l.tail)).map (fun ab => ab.2) := by
  intro l
  induction l with
  | nil => rfl
  | cons a t ih =>
    cases t with
    | nil => rfl
    | cons b rest =>
      by_cases h : (pyStartsWith a "usb" && portShape b) = true
      · simp [usb_port_scan, h, List.find?_cons]
      · simp only [usb_port_scan, h, ite_false, List.zip_cons_cons, List.tail_cons]
        rw [List.find?_cons_of_neg _ (by simpa using h)]
        simpa using ih

/-- Claim C8 counterexample: on the resolved path
`/sys/usbA/zz/usb2/2-1` the first segment beginning with "usb" is
`usbA`, whose successor `zz` does not have the port shape, so the
claimed behaviour yields `none`; the code keeps scanning and returns
`2-1`. -/
theorem claim_C8_resolve_port_cx :
    block_dev_usb_port c8env "sdx" = some "2-1"
    ∧ usb_port_spec_first (pathParts "/sys/usbA/zz/usb2/2-1") = none
    ∧ pyStartsWith "usbA" "usb" = true ∧ portShape "zz" = false := by
  refine ⟨by decide, by decide, by decide, by decide⟩

/-- Claim C8 (amended): `block_dev_usb_port` returns the segment
immediately following the first path segment that begins with "usb"
AND whose next segment has the digit-first, "-"-containing shape; it
returns `none` when no such adjacent pair exists or the link cannot be
resolved, and it never raises (it is a total function). -/
theorem claim_C8_resolve_port : ∀ (env : Env) (name : String),
    block_dev_usb_port env name =
      match env.realpath ("/sys/block/" ++ name ++ "/device") with
      | none => none
      | some t =>
        (List.find? (fun ab => pyStartsWith ab.1 "usb" && portShape ab.2)
          ((pathParts t).zip (pathParts t).tail)).map (fun ab => ab.2) := by
  intro env name
  unfold block_dev_usb_port
  cases env.realpath ("/sys/block/" ++ name ++ "/device") with
  | none => rfl
  | some t => exact usb_port_scan_eq_find (pathParts t)

theorem strict_ext_scan_eq_find (name : String) : ∀ l : List String,
    strict_ext_scan name l =
      l.find? (fun p => pyStartsWith p name && !(p == name)) := by
  intro l
  induction l with
  | nil => rfl
  | cons a t ih =>
    by_cases h : (pyStartsWith a name && !(a == name)) = true
    · simp [strict_ext_scan, h, List.find?_cons]
    · simp only [strict_ext_scan, h, ite_false]
      rw [List.find?_cons_of_neg _ (by simpa using h)]
      exact ih

theorem find_of_filter_singleton {α : Type} (p : α → Bool) :
    ∀ (l : List α) (x : α), l.filter p = [x] → l.find? p = some x := by
  intro l
  induction l with
  | nil => intro x h; simp [List.filter_nil] at h
  | cons a t ih =>
    intro x h
    by_cases ha : p a = true
    · rw [List.filter_cons_of_pos ha] at h
      obtain ⟨rfl, -⟩ : a = x ∧ t.filter p = [] := by
        exact ⟨(List.cons.injEq _ _ _ _ ▸ h).1, (List.cons.injEq _ _ _ _ ▸ h).2⟩
      rw [List.find?_cons_of_pos _ ha]
    · rw [List.filter_cons_of_neg ha] at h
      rw [List.find?_cons_of_neg _ ha]
      exact ih x h

/-- Claim C7 counterexample: in `devEnv` the chosen base device `sda`
has two sub-entries that are strict extensions of its name, so the
claimed behaviour ("prefer a partition exactly when there is exactly
one such sub-entry") demands the base name `sda`; the code returns the
first strict extension `sda1`. -/
theorem claim_C7_partition_cx :
    devEnv.listdir "/sys/block/sda" = some ["power", "sda1", "sda2"]
    ∧ (["power", "sda1", "sda2"].filter
        (fun p => pyStartsWith p "sda" && !(p == "sda"))).length = 2
    ∧ get_device_name devEnv = some "sda1" := by
  refine ⟨by decide, by decide, by decide⟩

/-- Claim C7 (amended): the scanner prefers a partition name as the
effective device identity exactly when the device has at least one
sub-entry whose name is a strict extension of the device name, choosing
the FIRST such sub-entry in enumeration order; otherwise the base
device name is used.  The first conjunct characterizes
`device_identity` on every environment without hypotheses (covering
the no-extension and unreadable-listing fallbacks as well); the second
conjunct notes that with exactly one strict extension it is the one
chosen, as the original claim states. -/
theorem claim_C7_partition : ∀ (env : Env) (n : String),
    (device_identity env n =
      match env.listdir ("/sys/block/" ++ n) with
      | none => n
      | some parts =>
        match parts.find? (fun p => pyStartsWith p n && !(p == n)) with
        | some p => p
        | none => n)
    ∧ (∀ (parts : List String) (q : String),
        env.listdir ("/sys/block/" ++ n) = some parts →
        parts.filter (fun p => pyStartsWith p n && !(p == n)) = [q] →
        device_identity env n = q) := by
  intro env n
  constructor
  · unfold device_identity
    cases h : env.listdir ("/sys/block/" ++ n) with
    | none => rfl
    | some parts =>
      show (match strict_ext_scan n parts with
            | some p => p
            | none => n) =
          (match parts.find? (fun p => pyStartsWith p n && !(p == n)) with
            | some p => p
            | none => n)
      rw [strict_ext_scan_eq_find]
  · intro parts q hp hq
    unfold device_identity
    rw [hp]
    show (match strict_ext_scan n parts with
          | some p => p
          | none => n) = q
    rw [strict_ext_scan_eq_find, find_of_filter_singleton _ parts q hq]

/-- Claim C7 witness: instantiating the exactly-one-extension conjunct
of the amended characterization at a concrete environment exposing the
single strict extension `sda1`. -/
theorem claim_C7_partition_w : device_identity c7envOne "sda" = "sda1" :=
  (claim_C7_partition c7envOne "sda").2 ["power", "sda1"] "sda1"
    (by decide) (by decide)

theorem cleanup_on_error_fst (env : Env) (mp : String) (st : MState) :
    (cleanup_on_error env mp st).1 = "3" := by
  unfold cleanup_on_error
  by_cases h : mp = ""
  · simp [h]
  · simp only [h, ite_false]
    cases env.umount2R mp with
    | none => rfl
    | some urc2 =>
      by_cases hr : env.rmdir2Ok mp = true <;> simp [hr]

theorem cleanup_on_error_vc (env : Env) (mp : String) (st : MState) :
    (cleanup_on_error env mp st).2.validateCalled = st.validateCalled := by
  unfold cleanup_on_error
  by_cases h : mp = ""
  · simp [h]
  · simp only [h, ite_false]
    cases env.umount2R mp with
    | none => rfl
    | some urc2 =>
      by_cases hr : env.rmdir2Ok mp = true <;> simp [hr]

theorem mount_result_fst (env : Env) (dn : String) :
    (mount_and_validate env dn).1 = "1" ∨ (mount_and_validate env dn).1 = "3" := by
  unfold mount_and_validate
  cases env.mkdtempR with
  | none => right; rfl
  | some mp =>
    cases env.mountR ("/dev/" ++ dn) with
    | none => right; exact cleanup_on_error_fst env mp _
    | some rc =>
      by_cases h : rc ≠ 0
      · right; simp [h]
      · simp only [h, ite_false]
        cases env.umountR mp with
        | none => right; exact cleanup_on_error_fst env mp _
        | some urc =>
          by_cases hv : validate_mounted_usb env mp dn = true
          · left; simp [hv]
          · right; simp [hv]

/-- Claim C1 is violated by the code (code bug): with a successfully
created temporary directory and a mount command exiting non-zero,
`mount_and_validate` returns `"3"` directly and the mkdtemp directory
still exists when the operation returns (the early `return "3"` skips
both cleanup sites); nothing is mounted on that path. -/
theorem claim_C1_mount_fail_leak :
    c1env.mkdtempR = some "/tmp/usb_validate_a"
    ∧ c1env.mountR "/dev/sda1" = some 32
    ∧ mount_and_validate c1env "sda1" =
        ("3", { dirExists := true, mounted := false, validateCalled := false }) := by
  refine ⟨rfl, rfl, by decide⟩

/-- Claim C5: `mount_and_validate` only ever returns `"1"` or `"3"`
(never the absent code `"0"`), and whenever the mount step raises
(timeout) or exits non-zero the result is `"3"` and
`validate_mounted_usb` (hence signature verification and serial
resolution) is never invoked. -/
theorem claim_C5_result_range : ∀ (env : Env) (dn : String),
    ((mount_and_validate env dn).1 = "1" ∨ (mount_and_validate env dn).1 = "3")
    ∧ (env.mountR ("/dev/" ++ dn) = none →
        (mount_and_validate env dn).1 = "3"
        ∧ (mount_and_validate env dn).2.validateCalled = false)
    ∧ (∀ rc : Int, env.mountR ("/dev/" ++ dn) = some rc → rc ≠ 0 →
        (mount_and_validate env dn).1 = "3"
        ∧ (mount_and_validate env dn).2.validateCalled = false) := by
  intro env dn
  refine ⟨mount_result_fst env dn, ?_, ?_⟩
  · intro hm
    unfold mount_and_validate
    cases henv : env.mkdtempR with
    | none => exact ⟨rfl, rfl⟩
    | some mp =>
      rw [hm]
      exact ⟨cleanup_on_error_fst env mp _, cleanup_on_error_vc env mp _⟩
  · intro rc hm hrc
    unfold mount_and_validate
    cases henv : env.mkdtempR with
    | none => exact ⟨rfl, rfl⟩
    | some mp =>
      rw [hm]
      simp [hrc]

/-- Claim C5 witness: the mount-timeout environment and the
non-zero-exit environment both yield `"3"` with no validation
attempted. -/
theorem claim_C5_result_range_w :
    ((mount_and_validate c5aenv "sda1").1 = "3"
      ∧ (mount_and_validate c5aenv "sda1").2.validateCalled = false)
    ∧ ((mount_and_validate c5benv "sda1").1 = "3"
      ∧ (mount_and_validate c5benv "sda1").2.validateCalled = false) :=
  ⟨(claim_C5_result_range c5aenv "sda1").2.1 rfl,
   (claim_C5_result_range c5benv "sda1").2.2 32 rfl (by decide)⟩

theorem validate_no_key (env : Env) (mp dn : String)
    (h : load_public_key env none = none) :
    validate_mounted_usb env mp dn = false := by
  unfold validate_mounted_usb
  rw [h]

theorem mount_no_key (env : Env) (dn : String)
    (h : load_public_key env none = none) :
    (mount_and_validate env dn).1 = "3" := by
  unfold mount_and_validate
  cases env.mkdtempR with
  | none => rfl
  | some mp =>
    cases env.mountR ("/dev/" ++ dn) with
    | none => exact cleanup_on_error_fst env mp _
    | some rc =>
      by_cases hrc : rc ≠ 0
      · simp [hrc]
      · simp only [hrc, ite_false]
        cases env.umountR mp with
        | none => exact cleanup_on_error_fst env mp _
        | some urc => simp [validate_no_key env mp dn h]

/-- Claim C6: the embedded key is the known placeholder (contains
`REPLACE_THIS`), so `load_public_key` with the default argument falls
back to reading `/etc/usb-validator/public_key.pem`; and whenever no
usable key results (file missing, unreadable, or unparsable),
validation of a mounted device returns false and `mount_and_validate`
returns `"3"` — never trivially valid. -/
theorem claim_C6_key_fallback :
    containsSubstr PUBLIC_KEY_PEM "REPLACE_THIS" = true
    ∧ (∀ env : Env,
        load_public_key env none =
          if env.fileExists "/etc/usb-validator/public_key.pem" then
            match env.readFile "/etc/usb-validator/public_key.pem" with
            | none => none
            | some d => env.parseKey d
          else none)
    ∧ (∀ (env : Env) (mp dn : String),
        load_public_key env none = none → validate_mounted_usb env mp dn = false)
    ∧ (∀ (env : Env) (dn : String),
        load_public_key env none = none → (mount_and_validate env dn).1 = "3") := by
  refine ⟨by decide, ?_, validate_no_key, mount_no_key⟩
  intro env
  have hc : containsSubstr PUBLIC_KEY_PEM "REPLACE_THIS" = true := by decide
  simp [load_public_key, hc]

/-- Claim C6 witness: in the all-failing environment no key loads,
validation is false and the mount cycle reports `"3"`. -/
theorem claim_C6_key_fallback_w :
    validate_mounted_usb nullEnv "/tmp/usb_validate_a" "sda1" = false
    ∧ (mount_and_validate nullEnv "sda1").1 = "3" :=
  ⟨claim_C6_key_fallback.2.2.1 nullEnv "/tmp/usb_validate_a" "sda1" (by decide),
   claim_C6_key_fallback.2.2.2 nullEnv "sda1" (by decide)⟩

/-- Claim C4: `verify_signature` returns true exactly when the PSS
verification primitive accepts the signature under the given key, with
MGF1(SHA-256) padding and maximum salt length, over the SHA-256 digest
of the UTF-8 bytes of `serial ++ "manufacture"`; both exception
branches (`InvalidSignature` and any other structural failure) collapse
to `false`, so the operation is total and never raises. -/
theorem claim_C4_verify_protocol : ∀ (env : Env) (serial signature : String)
    (key : Nat),
    verify_signature env serial signature key = true ↔
      env.pssVerify key signature
          (env.sha256 (utf8Encode (serial ++ "manufacture")))
          { mgf1Hash := HashAlg.sha256, salt_length := PSSSaltLen.maxLength }
          HashAlg.sha256 = VerifyOutcome.ok := by
  intro env serial signature key
  unfold verify_signature
  cases h : env.pssVerify key signature
      (env.sha256 (utf8Encode (serial ++ "manufacture")))
      { mgf1Hash := HashAlg.sha256, salt_length := PSSSaltLen.maxLength }
      HashAlg.sha256 <;> simp [h]

theorem tick_pres (e : TickEnv) (s : LoopState) (hs : loopInv s) :
    goodLine (tick e s).1 ∧ loopInv (tick e s).2.2 := by
  cases e with
  | exn => simp [tick, goodLine, loopInv]
  | ok env =>
    cases hd : get_device_name env with
    | none => simp [tick, hd, goodLine, loopInv]
    | some dn =>
      by_cases hl : s.last_detected = true
      · rcases hs hl with h | h <;>
          simp [tick, hd, hl, h, pyPrintOpt, goodLine, loopInv]
      · have hl' : s.last_detected = false := by
          cases hb : s.last_detected
          · rfl
          · exact absurd hb hl
        rcases mount_result_fst env dn with h | h <;>
          simp [tick, hd, hl', h, goodLine, loopInv]

/-- Claim C10: the loop-state invariant — whenever `last_detected` is
true a cached result `"1"` or `"3"` is present — is preserved by every
tick, and from any state satisfying it every line the loop prints is
one of the literals `"0"`, `"1"`, `"3"` (so the cached-result branch
never prints `None`). -/
theorem claim_C10_loop_invariant : ∀ (es : List TickEnv) (s : LoopState),
    loopInv s →
    (∀ e : TickEnv, loopInv (tick e s).2.2)
    ∧ (∀ l ∈ (runTicks es s).1, goodLine l)
    ∧ loopInv (runTicks es s).2.2 := by
  intro es
  induction es with
  | nil =>
    intro s hs
    exact ⟨fun e => (tick_pres e s hs).2, by simp [runTicks], hs⟩
  | cons e es ih =>
    intro s hs
    have hp := tick_pres e s hs
    have hr := ih (tick e s).2.2 hp.2
    refine ⟨fun e2 => (tick_pres e2 s hs).2, ?_, ?_⟩
    · intro l hl
      have hl' : l = (tick e s).1 ∨ l ∈ (runTicks es (tick e s).2.2).1 :=
        List.mem_cons.mp hl
      rcases hl' with rfl | hmem
      · exact hp.1
      · exact hr.2.1 l hmem
    · exact hr.2.2

/-- Claim C10 witness: starting from the initial state, after an
exception tick and a no-device tick the invariant still holds. -/
theorem claim_C10_loop_invariant_w :
    loopInv (runTicks [TickEnv.exn, TickEnv.ok nullEnv]
      { last_detected := false, validation_result := none }).2.2 :=
  (claim_C10_loop_invariant [TickEnv.exn, TickEnv.ok nullEnv]
    { last_detected := false, validation_result := none }
    (by simp [loopInv])).2.2

/-- Claim C2: for the presence sequence absent, present, present,
present, absent, present the loop validates exactly at ticks 2 and 6
and emits `0, R1, R1, R1, 0, R2` where `R1`, `R2` are the two
validation outcomes; in general a steady-state tick (device present,
`last_detected` true) re-emits the cached result without invoking
validation and leaves the state unchanged. -/
theorem claim_C2_edge_trigger :
    (∀ (e1 e2 e3 e4 e5 e6 : Env) (d : String),
      get_device_name e1 = none → get_device_name e2 = some d →
      get_device_name e3 = some d → get_device_name e4 = some d →
      get_device_name e5 = none → get_device_name e6 = some d →
      runTicks [TickEnv.ok e1, TickEnv.ok e2, TickEnv.ok e3, TickEnv.ok e4,
          TickEnv.ok e5, TickEnv.ok e6]
          { last_detected := false, validation_result := none } =
        (["0", (mount_and_validate e2 d).1, (mount_and_validate e2 d).1,
            (mount_and_validate e2 d).1, "0", (mount_and_validate e6 d).1],
         [none, some d, none, none, none, some d],
         { last_detected := true,
           validation_result := some (mount_and_validate e6 d).1 }))
    ∧ (∀ (env : Env) (s : LoopState) (dn r : String),
        get_device_name env = some dn → s.last_detected = true →
        s.validation_result = some r →
        tick (TickEnv.ok env) s =
          (r, none, { last_detected := true, validation_result := some r })) := by
  constructor
  · intro e1 e2 e3 e4 e5 e6 d h1 h2 h3 h4 h5 h6
    simp [runTicks, tick, h1, h2, h3, h4, h5, h6, pyPrintOpt]
  · intro env s dn r hd hl hv
    simp [tick, hd, hl, hv, pyPrintOpt]

/-- Claim C2 witness: the concrete six-tick run against `devEnv`
(device `sda1` on port 2-1) and `nullEnv` (no device), plus one
steady-state tick with a cached `"1"`. -/
theorem claim_C2_edge_trigger_w :
    (runTicks [TickEnv.ok nullEnv, TickEnv.ok devEnv, TickEnv.ok devEnv,
        TickEnv.ok devEnv, TickEnv.ok nullEnv, TickEnv.ok devEnv]
        { last_detected := false, validation_result := none } =
      (["0", (mount_and_validate devEnv "sda1").1,
          (mount_and_validate devEnv "sda1").1,
          (mount_and_validate devEnv "sda1").1, "0",
          (mount_and_validate devEnv "sda1").1],
       [none, some "sda1", none, none, none, some "sda1"],
       { last_detected := true,
         validation_result := some (mount_and_validate devEnv "sda1").1 }))
    ∧ tick (TickEnv.ok devEnv)
        { last_detected := true, validation_result := some "1" } =
        ("1", none, { last_detected := true, validation_result := some "1" }) :=
  ⟨claim_C2_edge_trigger.1 nullEnv devEnv devEnv devEnv nullEnv devEnv "sda1"
      (by decide) (by decide) (by decide) (by decide) (by decide) (by decide),
   claim_C2_edge_trigger.2 devEnv
      { last_detected := true, validation_result := some "1" } "sda1" "1"
      (by decide) rfl rfl⟩
